import Mathlib

/-
  Verification of the QR ordering system core: tenant model, license gates,
  order lifecycle endpoints, total-amount aggregation, and CSV sales export.
  Django models and views are shallowly embedded as pure Lean functions over
  an explicit database state.  Money amounts are modelled in integer cents
  (the source uses fixed-point decimals with two places); dates and
  timestamps are modelled as natural numbers (day and tick counts).
-/

namespace QRSys

/-- A staff identity, as seen by the views through request.user. -/
structure User where
  id : Nat
  is_authenticated : Bool
deriving DecidableEq, Repr

/-- orders/models.py Restaurant: tenant record with a manual active flag and
an optional expiry date. -/
structure Restaurant where
  id : Nat
  name : String
  owner : Nat
  expiry_date : Option Nat
  is_active : Bool
deriving DecidableEq, Repr

/-- Modelled from the spec: the LicenseConfig model is imported by
orders/views.py and orders/admin.py but its definition is not among the
provided sources.  Spec section 3: License has an owner identity (1:1) and an
optional expiry_date, null meaning unlimited. -/
structure LicenseConfig where
  id : Nat
  user : Nat
  expiry_date : Option Nat
deriving DecidableEq, Repr

/-- Modelled from the spec: LicenseConfig.is_active is called by
license_required but not defined among the provided sources.  Spec section 3:
is_active = expiry_date is null OR expiry_date >= today. -/
def LicenseConfig.is_active (l : LicenseConfig) (today : Nat) : Bool :=
  match l.expiry_date with
  | none => true
  | some d => today ≤ d

/-- Modelled from the spec: Restaurant.is_active_now is called by
license_required, public_license_check and the admin but not defined among
the provided sources.  Spec section 3: is_active_now = is_active AND
(expiry_date is null OR expiry_date >= today). -/
def Restaurant.is_active_now (r : Restaurant) (today : Nat) : Bool :=
  r.is_active && (match r.expiry_date with
                  | none => true
                  | some d => today ≤ d)

/-- orders/models.py MenuItem (fields the order lifecycle uses; price in
cents). -/
structure MenuItem where
  id : Nat
  restaurant : Nat
  name : String
  price : Nat
  is_available : Bool
deriving DecidableEq, Repr

/-- orders/models.py Table: code is unique per restaurant only, so two
tenants may reuse the same code string. -/
structure Table where
  id : Nat
  restaurant : Nat
  name : String
  code : String
deriving DecidableEq, Repr

/-- orders/models.py Order.STATUS_CHOICES keys. -/
def statusKeys : List String :=
  ["PENDING", "IN_PROGRESS", "SERVED", "PAID", "CANCELLED"]

/-- orders/models.py Order: status is a free string drawn from
STATUS_CHOICES; the table reference is nullable (SET_NULL). -/
structure Order where
  id : Nat
  restaurant : Nat
  table : Option Nat
  status : String
  created_at : Nat
  notes : String
deriving DecidableEq, Repr

/-- orders/models.py OrderItem: a line of an order referencing a menu item
with a positive quantity. -/
structure OrderItem where
  id : Nat
  order : Nat
  item : Nat
  qty : Nat
deriving DecidableEq, Repr

/-- orders/models.py Bill (fields the Bill.save business rule uses). -/
structure Bill where
  id : Nat
  restaurant : Nat
  customer : Nat
  order : Nat
  status : String
deriving DecidableEq, Repr

/-- The relational store visible to the embedded views. -/
structure DB where
  restaurants : List Restaurant
  licenses : List LicenseConfig
  tables : List Table
  menu_items : List MenuItem
  orders : List Order
  order_items : List OrderItem
  bills : List Bill
deriving DecidableEq, Repr

/-- Result of Django Model.objects.get(...): exactly one row, no row
(DoesNotExist), or several rows (MultipleObjectsReturned). -/
inductive GetResult (α : Type) where
  | found (a : α)
  | notFound
  | multiple
deriving DecidableEq, Repr

/-- Django objects.get semantics over a row list. -/
def objectsGet (p : α → Bool) (l : List α) : GetResult α :=
  match l.filter p with
  | [] => .notFound
  | [a] => .found a
  | _ => .multiple

/-- Next autoincrement primary key for a row list. -/
def nextId (ids : List Nat) : Nat :=
  ids.foldl max 0 + 1

/-- Outcome of a gate decorator: a denial response, a pass into the wrapped
view, or an exception the decorator does not catch (a 500 to the caller). -/
inductive Gate where
  | deny (code : Nat) (detail : String)
  | allow
  | uncaught
deriving DecidableEq, Repr

/-- orders/views.py license_required: 401 when unauthenticated, 403 when the
LicenseConfig row is missing or expired, then 403 when the caller owns a
restaurant that is not active now; otherwise the wrapped view runs. -/
def license_required (db : DB) (today : Nat) (user : User) : Gate :=
  if !user.is_authenticated then .deny 401 "Authentication required"
  else
    match objectsGet (fun l => l.user == user.id) db.licenses with
    | .notFound => .deny 403 "No license found"
    | .multiple => .uncaught
    | .found license_obj =>
      if !license_obj.is_active today then .deny 403 "License expired"
      else
        match db.restaurants.find? (fun r => r.owner == user.id) with
        | some restaurant =>
          if !restaurant.is_active_now today then
            .deny 403 "Restaurant expired or inactive"
          else .allow
        | none => .allow

/-- orders/views.py public_license_check: when a table code is supplied the
table is looked up globally by code; an unknown code is a 400, a table of an
inactive restaurant a 403.  Without a table code the view runs unchecked. -/
def public_license_check (db : DB) (today : Nat) (table_code : Option String) : Gate :=
  match table_code with
  | none => .allow
  | some tc =>
    match objectsGet (fun t => t.code == tc) db.tables with
    | .notFound => .deny 400 "Invalid table code"
    | .multiple => .uncaught
    | .found table =>
      match db.restaurants.find? (fun r => r.id == table.restaurant) with
      | none => .uncaught
      | some r =>
        if !r.is_active_now today then .deny 403 "Restaurant expired or inactive"
        else .allow

/-- Order items attached to one order, in row order. -/
def items_of (db : DB) (oid : Nat) : List OrderItem :=
  db.order_items.filter (fun oi => oi.order == oid)

/-- Current price of a menu item looked up by primary key (the join
item__price reads the live price row). -/
def item_price (db : DB) (iid : Nat) : Nat :=
  match db.menu_items.find? (fun mi => mi.id == iid) with
  | some mi => mi.price
  | none => 0

/-- orders/models.py OrderItem.line_total: qty times the current item
price. -/
def OrderItem.line_total (db : DB) (oi : OrderItem) : Nat :=
  oi.qty * item_price db oi.item

/-- The Sum(F(qty) * F(item__price)) aggregate of orders/models.py
Order.total_amount and orders/serializers.py get_total_amount: none when the
order has no item rows, otherwise the accumulated sum. -/
def aggregate_total (db : DB) (oid : Nat) : Option Nat :=
  match items_of db oid with
  | [] => none
  | rows => some (rows.foldl (fun acc oi => acc + oi.qty * item_price db oi.item) 0)

/-- orders/models.py Order.total_amount property: the aggregate with the
Python or-0 fallback for an empty item set. -/
def Order.total_amount (db : DB) (oid : Nat) : Nat :=
  (aggregate_total db oid).getD 0

/-- orders/serializers.py OrderSerializer.get_total_amount: the same
aggregate recomputed in the serializer, with the same or-0 fallback. -/
def get_total_amount (db : DB) (oid : Nat) : Nat :=
  (aggregate_total db oid).getD 0

/-- orders/serializers.py OrderSerializer.get_table: the table code, none
for a detached order. -/
def serializer_table (db : DB) (o : Order) : Option String :=
  match o.table with
  | none => none
  | some tid =>
    match db.tables.find? (fun t => t.id == tid) with
    | some t => some t.code
    | none => none

/-- orders/serializers.py restaurant_name field: the name of the owning
restaurant row. -/
def serializer_restaurant_name (db : DB) (o : Order) : String :=
  match db.restaurants.find? (fun r => r.id == o.restaurant) with
  | some r => r.name
  | none => ""

/-- The JSON body OrderSerializer produces for one order; items are rendered
as (menu item id, qty, line total in cents). -/
structure OrderData where
  id : Nat
  restaurant_name : String
  table : Option String
  status : String
  created_at : Nat
  items : List (Nat × Nat × Nat)
  notes : String
  total_amount : Nat
deriving DecidableEq, Repr

/-- orders/serializers.py OrderSerializer applied to one order row. -/
def OrderSerializer (db : DB) (o : Order) : OrderData :=
  { id := o.id
    restaurant_name := serializer_restaurant_name db o
    table := serializer_table db o
    status := o.status
    created_at := o.created_at
    items := (items_of db o.id).map (fun oi => (oi.item, oi.qty, oi.line_total db))
    notes := o.notes
    total_amount := get_total_amount db o.id }

/-- Insertion step of order_by on minus created_at: newest first. -/
def insert_desc (o : Order) : List Order → List Order
  | [] => [o]
  | x :: xs =>
    if x.created_at < o.created_at then o :: x :: xs else x :: insert_desc o xs

/-- Django order_by on minus created_at over a row list. -/
def order_by_created_desc (l : List Order) : List Order :=
  l.foldr insert_desc []

/-- Response of the two list endpoints. -/
inductive ListResult where
  | ok (body : List OrderData)
  | badRequest (detail : String)
  | deny (code : Nat) (detail : String)
  | uncaught
deriving DecidableEq, Repr

/-- orders/views.py api_staff_orders: behind license_required, lists
Order.objects.all ordered newest first, optionally filtered by the status
query parameter.  No tenant filter is applied to the queryset. -/
def api_staff_orders (db : DB) (today : Nat) (user : User)
    (status_q : Option String) : ListResult :=
  match license_required db today user with
  | .deny c d => .deny c d
  | .uncaught => .uncaught
  | .allow =>
    let qs := order_by_created_desc db.orders
    let qs : List Order :=
      match status_q with
      | some s => qs.filter (fun o => o.status == s)
      | none => qs
    .ok (qs.map (OrderSerializer db))

/-- orders/views.py api_customer_orders: behind public_license_check, the
table is resolved globally by code and the orders of that table are listed
newest first. -/
def api_customer_orders (db : DB) (today : Nat)
    (table_param : Option String) : ListResult :=
  match public_license_check db today table_param with
  | .deny c d => .deny c d
  | .uncaught => .uncaught
  | .allow =>
    match table_param with
    | none => .badRequest "table query parameter required"
    | some tc =>
      match objectsGet (fun t => t.code == tc) db.tables with
      | .notFound => .badRequest "Invalid table code"
      | .multiple => .uncaught
      | .found table =>
        let orders :=
          order_by_created_desc (db.orders.filter (fun o => o.table == some table.id))
        .ok (orders.map (OrderSerializer db))

/-- One submitted order line: item_id is absent when the request dict lacks
the key (a KeyError in the source loop), qty is absent when the dict has no
qty key (the source defaults it to 1). -/
structure ReqItem where
  item_id : Option Nat
  qty : Option Nat
deriving DecidableEq, Repr

/-- Body of a create-order request. -/
structure CreateOrderRequest where
  table_code : Option String
  items : List ReqItem
  notes : String
deriving DecidableEq, Repr

/-- Response of api_create_order. -/
inductive CreateResult where
  | created (body : OrderData)
  | badRequest (detail : String)
  | deny (code : Nat) (detail : String)
  | uncaught
deriving DecidableEq, Repr

/-- The item loop of api_create_order: each line reads item_id (a missing
key raises and aborts the loop), resolves the menu item (a missing item is
skipped), and inserts an OrderItem row.  Returns the store after the loop
and whether it completed without raising.  State before the loop, the order
row included, is kept on abort: there is no enclosing transaction. -/
def attach_items (db : DB) (oid : Nat) : List ReqItem → DB × Bool
  | [] => (db, true)
  | it :: rest =>
    match it.item_id with
    | none => (db, false)
    | some iid =>
      match objectsGet (fun mi => mi.id == iid) db.menu_items with
      | .notFound => attach_items db oid rest
      | .multiple => (db, false)
      | .found menu_item =>
        let oi : OrderItem :=
          { id := nextId (db.order_items.map (fun x => x.id))
            order := oid
            item := menu_item.id
            qty := it.qty.getD 1 }
        attach_items { db with order_items := db.order_items ++ [oi] } oid rest

/-- orders/views.py api_create_order: behind public_license_check; 400
without or with an unknown table_code; otherwise the Order row is inserted
first (status PENDING, restaurant taken from the table) and the item loop
runs afterwards, outside any transaction. -/
def api_create_order (db : DB) (today now : Nat)
    (req : CreateOrderRequest) : DB × CreateResult :=
  match public_license_check db today req.table_code with
  | .deny c d => (db, .deny c d)
  | .uncaught => (db, .uncaught)
  | .allow =>
    match req.table_code with
    | none => (db, .badRequest "table_code required")
    | some tc =>
      match objectsGet (fun t => t.code == tc) db.tables with
      | .notFound => (db, .badRequest "Invalid table code")
      | .multiple => (db, .uncaught)
      | .found table =>
        let oid := nextId (db.orders.map (fun o => o.id))
        let order : Order :=
          { id := oid
            restaurant := table.restaurant
            table := some table.id
            status := "PENDING"
            created_at := now
            notes := req.notes }
        let db1 := { db with orders := db.orders ++ [order] }
        match attach_items db1 oid req.items with
        | (db2, false) => (db2, .uncaught)
        | (db2, true) => (db2, .created (OrderSerializer db2 order))

/-- Response of api_update_order. -/
inductive UpdateResult where
  | ok (body : OrderData)
  | invalid
  | notFound
  | deny (code : Nat) (detail : String)
  | uncaught
deriving DecidableEq, Repr

/-- orders/views.py api_update_order: behind license_required; 404 when the
order id is unknown, 400 when the submitted status is not one of the
STATUS_CHOICES keys, otherwise the status is written directly, with no
transition table consulted, and the updated order is returned. -/
def api_update_order (db : DB) (today : Nat) (user : User)
    (order_id : Nat) (body_status : Option String) : DB × UpdateResult :=
  match license_required db today user with
  | .deny c d => (db, .deny c d)
  | .uncaught => (db, .uncaught)
  | .allow =>
    match objectsGet (fun o => o.id == order_id) db.orders with
    | .notFound => (db, .notFound)
    | .multiple => (db, .uncaught)
    | .found o =>
      let new_status := body_status.getD ""
      if statusKeys.contains new_status then
        let o2 := { o with status := new_status }
        let db2 :=
          { db with orders :=
              db.orders.map (fun x => if x.id == order_id then o2 else x) }
        (db2, .ok (OrderSerializer db2 o2))
      else (db, .invalid)

/-- One data row of the sales CSV. -/
structure CsvRow where
  order_id : Nat
  table : String
  status : String
  created_at : Nat
  total : Nat
deriving DecidableEq, Repr

/-- The table cell of a CSV row: the table name, empty for a detached
order. -/
def csv_table_name (db : DB) (o : Order) : String :=
  match o.table with
  | none => ""
  | some tid =>
    match db.tables.find? (fun t => t.id == tid) with
    | some t => t.name
    | none => ""

/-- The writer row for one order: id, table name, status, creation time and
the total recomputed through the Order.total_amount property. -/
def csv_row (db : DB) (o : Order) : CsvRow :=
  { order_id := o.id
    table := csv_table_name db o
    status := o.status
    created_at := o.created_at
    total := Order.total_amount db o.id }

/-- orders/admin.py export_sales_csv: one writer row per order in the
queryset, each total recomputed through the Order.total_amount property and
accumulated into total_sum, which fills the trailing TOTAL SALES row.  The
result is the data rows and that trailing grand total. -/
def export_sales_csv (db : DB) (qs : List Order) : List CsvRow × Nat :=
  qs.foldl
    (fun acc o => (acc.1 ++ [csv_row db o], acc.2 + Order.total_amount db o.id))
    ([], 0)

/-- orders/models.py Bill.save: the row is saved, then, when the bill status
is paid and the referenced order is not yet PAID, the order status is
written to PAID through a second save. -/
def Bill.save (db : DB) (b : Bill) : DB :=
  let db1 := { db with bills := db.bills ++ [b] }
  match db1.orders.find? (fun o => o.id == b.order) with
  | none => db1
  | some o =>
    if b.status == "paid" && !(o.status == "PAID") then
      { db1 with orders :=
          db1.orders.map (fun x =>
            if x.id == b.order then { x with status := "PAID" } else x) }
    else db1

/-
  Concrete store fixtures used to evaluate the endpoints on closed inputs.
-/

/-- Staff identity owning restaurant 1 in the fixtures below. -/
def staff1 : User := { id := 1, is_authenticated := true }

/-- An order of tenant 1 in dbLeak. -/
def leakOrder1 : Order :=
  { id := 101, restaurant := 1, table := some 1, status := "PENDING",
    created_at := 10, notes := "" }

/-- An order of tenant 2 in dbLeak. -/
def leakOrder2 : Order :=
  { id := 202, restaurant := 2, table := some 2, status := "PENDING",
    created_at := 20, notes := "" }

/-- Two active tenants, each with one order; staff1 owns restaurant 1 and
holds an unlimited license. -/
def dbLeak : DB :=
  { restaurants :=
      [ { id := 1, name := "A", owner := 1, expiry_date := none, is_active := true },
        { id := 2, name := "B", owner := 2, expiry_date := none, is_active := true } ]
    licenses := [ { id := 1, user := 1, expiry_date := none } ]
    tables :=
      [ { id := 1, restaurant := 1, name := "Table 1", code := "A1" },
        { id := 2, restaurant := 2, name := "Table 1", code := "B1" } ]
    menu_items := []
    orders := [leakOrder1, leakOrder2]
    order_items := []
    bills := [] }

/-- Two active tenants that both own a table with code T1. -/
def dbDupCode : DB :=
  { restaurants :=
      [ { id := 1, name := "A", owner := 1, expiry_date := none, is_active := true },
        { id := 2, name := "B", owner := 2, expiry_date := none, is_active := true } ]
    licenses := []
    tables :=
      [ { id := 1, restaurant := 1, name := "Table 1", code := "T1" },
        { id := 2, restaurant := 2, name := "Table 1", code := "T1" } ]
    menu_items := []
    orders := []
    order_items := []
    bills := [] }

/-- One active tenant with table T1 and menu item 5 priced 100 cents. -/
def dbCreate : DB :=
  { restaurants :=
      [ { id := 1, name := "A", owner := 1, expiry_date := none, is_active := true } ]
    licenses := []
    tables := [ { id := 1, restaurant := 1, name := "Table 1", code := "T1" } ]
    menu_items :=
      [ { id := 5, restaurant := 1, name := "Dish", price := 100, is_available := true } ]
    orders := []
    order_items := []
    bills := [] }

/-- A create request whose second line lacks the item_id key: the source
loop raises KeyError there after the order row is already inserted. -/
def reqMissingKey : CreateOrderRequest :=
  { table_code := some "T1"
    items := [ { item_id := some 5, qty := some 2 },
               { item_id := none, qty := some 1 } ]
    notes := "" }

/-- One active tenant with table T1 and menu item 5 priced p cents; item
9999 does not exist. -/
def dbMixed (p : Nat) : DB :=
  { restaurants :=
      [ { id := 1, name := "A", owner := 1, expiry_date := none, is_active := true } ]
    licenses := []
    tables := [ { id := 1, restaurant := 1, name := "Table 1", code := "T1" } ]
    menu_items :=
      [ { id := 5, restaurant := 1, name := "Dish", price := p, is_available := true } ]
    orders := []
    order_items := []
    bills := [] }

/-- The spec section 8 request: one resolvable line (item 5, qty 2) and one
unresolvable line (item 9999, qty 1). -/
def reqMixed : CreateOrderRequest :=
  { table_code := some "T1"
    items := [ { item_id := some 5, qty := some 2 },
               { item_id := some 9999, qty := some 1 } ]
    notes := "" }

/-- Authenticated staff identity used in the license fixtures. -/
def staff7 : User := { id := 7, is_authenticated := true }

/-- Store with no license row for staff7 and an active restaurant owned by
staff7. -/
def dbNoLicense : DB :=
  { restaurants :=
      [ { id := 3, name := "C", owner := 7, expiry_date := none, is_active := true } ]
    licenses := []
    tables := []
    menu_items := []
    orders := []
    order_items := []
    bills := [] }

/-- Store where the license of staff7 expired on day 4 while the restaurant
of staff7 is active with no expiry. -/
def dbExpiredLicense : DB :=
  { restaurants :=
      [ { id := 3, name := "C", owner := 7, expiry_date := none, is_active := true } ]
    licenses := [ { id := 1, user := 7, expiry_date := some 4 } ]
    tables := []
    menu_items := []
    orders := []
    order_items := []
    bills := [] }

/-- Store for the status-update fixture: staff1 licensed, restaurant 1
active, one PAID order with id 42. -/
def dbUpdate : DB :=
  { restaurants :=
      [ { id := 1, name := "A", owner := 1, expiry_date := none, is_active := true } ]
    licenses := [ { id := 1, user := 1, expiry_date := none } ]
    tables := [ { id := 1, restaurant := 1, name := "Table 1", code := "T1" } ]
    menu_items := []
    orders :=
      [ { id := 42, restaurant := 1, table := some 1, status := "PAID",
          created_at := 10, notes := "" } ]
    order_items := []
    bills := [] }

/-- Store for the export fixture: two PAID orders with item rows. -/
def dbExport : DB :=
  { restaurants :=
      [ { id := 1, name := "A", owner := 1, expiry_date := none, is_active := true } ]
    licenses := []
    tables := [ { id := 1, restaurant := 1, name := "Table 1", code := "T1" } ]
    menu_items :=
      [ { id := 5, restaurant := 1, name := "Dish", price := 150, is_available := true },
        { id := 6, restaurant := 1, name := "Tea", price := 40, is_available := true } ]
    orders :=
      [ { id := 1, restaurant := 1, table := some 1, status := "PAID",
          created_at := 10, notes := "" },
        { id := 2, restaurant := 1, table := some 1, status := "PAID",
          created_at := 20, notes := "" } ]
    order_items :=
      [ { id := 1, order := 1, item := 5, qty := 2 },
        { id := 2, order := 2, item := 6, qty := 3 } ]
    bills := [] }

/-- Store for the bill fixture: one SERVED order with id 9. -/
def dbBill : DB :=
  { restaurants :=
      [ { id := 1, name := "A", owner := 1, expiry_date := none, is_active := true } ]
    licenses := []
    tables := []
    menu_items := []
    orders :=
      [ { id := 9, restaurant := 1, table := none, status := "SERVED",
          created_at := 10, notes := "" } ]
    order_items := []
    bills := [] }

/-- A paid bill referencing order 9. -/
def billPaid : Bill :=
  { id := 1, restaurant := 1, customer := 4, order := 9, status := "paid" }

/-- A pending bill referencing order 9. -/
def billPending : Bill :=
  { id := 2, restaurant := 1, customer := 4, order := 9, status := "pending" }

/-
  General lemmas about the embedded query helpers.
-/

/-- Folding addition of a projection equals the initial value plus the sum
of the mapped list. -/
theorem foldl_add_map {α : Type} (f : α → Nat) (l : List α) :
    ∀ acc : Nat, l.foldl (fun a x => a + f x) acc = acc + (l.map f).sum := by
  induction l with
  | nil => intro acc; simp
  | cons x xs ih => intro acc; simp [ih, Nat.add_assoc]

/-- objects.get raises MultipleObjectsReturned as soon as two distinct rows
satisfy the lookup predicate. -/
theorem objectsGet_multiple {α : Type} (p : α → Bool) (l : List α)
    (a b : α) (ha : a ∈ l) (hb : b ∈ l) (hpa : p a = true) (hpb : p b = true)
    (hab : a ≠ b) : objectsGet p l = .multiple := by
  have ha2 : a ∈ l.filter p := List.mem_filter.mpr ⟨ha, hpa⟩
  have hb2 : b ∈ l.filter p := List.mem_filter.mpr ⟨hb, hpb⟩
  unfold objectsGet
  cases hf : l.filter p with
  | nil => rw [hf] at ha2; cases ha2
  | cons x xs =>
    cases hxs : xs with
    | nil =>
      rw [hxs] at hf
      rw [hf] at ha2 hb2
      simp at ha2 hb2
      exact absurd (ha2.trans hb2.symm) hab
    | cons y t => rfl

/-- A one-row filter result is what find? returns. -/
theorem filter_single_find? {α : Type} (p : α → Bool) :
    ∀ (l : List α) (a : α), l.filter p = [a] → l.find? p = some a := by
  intro l
  induction l with
  | nil => intro a h; simp at h
  | cons x xs ih =>
    intro a h
    cases hx : p x with
    | true =>
      simp [List.filter_cons, hx] at h
      obtain ⟨rfl, h2⟩ := h
      simp [List.find?, hx]
    | false =>
      simp [List.filter_cons, hx] at h
      simpa [List.find?, hx] using ih a h

/-- The single row a one-row filter result returns satisfies the
predicate. -/
theorem filter_single_pred {α : Type} (p : α → Bool) (l : List α) (a : α)
    (h : l.filter p = [a]) : p a = true :=
  (List.mem_filter.mp (h ▸ List.mem_singleton.mpr rfl)).2

/-- A row update applied exactly to the rows matching a predicate commutes
with filtering on that predicate, when the update preserves it. -/
theorem filter_map_comm (p : Order → Bool) (f : Order → Order)
    (hf : ∀ x, p x = true → p (f x) = true) :
    ∀ l : List Order,
    (l.map (fun x => if p x then f x else x)).filter p = (l.filter p).map f := by
  intro l
  induction l with
  | nil => simp
  | cons x xs ih =>
    cases hx : p x with
    | true =>
      rw [List.map_cons, if_pos hx, List.filter_cons_of_pos (hf x hx),
          List.filter_cons_of_pos hx, List.map_cons, ih]
    | false =>
      rw [List.map_cons, if_neg (by simp [hx]),
          List.filter_cons_of_neg (by simp [hx]),
          List.filter_cons_of_neg (by simp [hx]), ih]

/-
  Claim theorems.
-/

/-- C8: the activity predicate used by the access checks equals
is_active AND (expiry_date is null OR expiry_date >= today); in particular a
restaurant whose manual flag is off is never considered active. -/
theorem is_active_now_matches_spec (r : Restaurant) (today : Nat) :
    (r.is_active_now today = true ↔
       r.is_active = true ∧
         (r.expiry_date = none ∨ ∃ d, r.expiry_date = some d ∧ today ≤ d))
    ∧ (r.is_active = false → r.is_active_now today = false) := by
  cases r with
  | mk id name owner expiry act =>
    cases expiry <;> cases act <;> simp [Restaurant.is_active_now]

/-- Witness for C8: a restaurant with the flag off and a future expiry is
inactive on day 7. -/
theorem is_active_now_matches_spec_witness :
    Restaurant.is_active_now
      { id := 1, name := "A", owner := 1, expiry_date := some 99, is_active := false } 7
      = false :=
  (is_active_now_matches_spec
    { id := 1, name := "A", owner := 1, expiry_date := some 99, is_active := false } 7).2 rfl

/-- C6: the order total is the sum of qty times current item price over the
attached order items, and the serializer recomputes exactly the model
property on every read; as a pure function of the store, repeated reads with
no intervening writes agree. -/
theorem total_amount_matches_item_sum (db : DB) (oid : Nat) :
    Order.total_amount db oid
        = ((items_of db oid).map (OrderItem.line_total db)).sum
    ∧ get_total_amount db oid = Order.total_amount db oid := by
  refine ⟨?_, rfl⟩
  unfold Order.total_amount aggregate_total
  cases h : items_of db oid with
  | nil => simp [h]
  | cons a as =>
    simp only [Option.getD_some]
    rw [foldl_add_map (fun oi => oi.qty * item_price db oi.item) (a :: as) 0]
    simp [OrderItem.line_total]
    rfl

/-- The export fold appends one row per order and accumulates exactly the
row totals, whatever the accumulator already holds. -/
theorem export_fold (db : DB) (qs : List Order) :
    ∀ (rows : List CsvRow) (s : Nat),
    qs.foldl (fun acc o => (acc.1 ++ [csv_row db o], acc.2 + Order.total_amount db o.id))
        (rows, s)
      = (rows ++ qs.map (csv_row db),
         s + (qs.map (fun o => Order.total_amount db o.id)).sum) := by
  induction qs with
  | nil => intro rows s; simp
  | cons o os ih =>
    intro rows s
    simp [ih (rows ++ [csv_row db o]) (s + Order.total_amount db o.id), Nat.add_assoc]

/-- C9: for a non-empty queryset of PAID orders the CSV export writes
exactly one row per order, each row total recomputed through the
total-amount rule, and the trailing grand total equals the sum of the row
totals. -/
theorem export_sales_csv_grand_total (db : DB) (qs : List Order)
    (hne : qs ≠ []) (hpaid : ∀ o ∈ qs, o.status = "PAID") :
    (export_sales_csv db qs).1.length = qs.length
    ∧ ((export_sales_csv db qs).1.map (fun r => r.total)).sum
        = (export_sales_csv db qs).2
    ∧ (export_sales_csv db qs).1.map (fun r => (r.order_id, r.total))
        = qs.map (fun o => (o.id, Order.total_amount db o.id)) := by
  unfold export_sales_csv
  rw [export_fold db qs [] 0]
  refine ⟨by simp, ?_, ?_⟩ <;>
    · simp [List.map_map, Function.comp, csv_row]
      try rfl

/-- Witness for C9 on the two-order PAID fixture. -/
theorem export_sales_csv_grand_total_witness :
    (export_sales_csv dbExport dbExport.orders).1.length = dbExport.orders.length
    ∧ ((export_sales_csv dbExport dbExport.orders).1.map (fun r => r.total)).sum
        = (export_sales_csv dbExport dbExport.orders).2
    ∧ (export_sales_csv dbExport dbExport.orders).1.map (fun r => (r.order_id, r.total))
        = dbExport.orders.map (fun o => (o.id, Order.total_amount dbExport o.id)) :=
  export_sales_csv_grand_total dbExport dbExport.orders (by decide) (by decide)

/-- C10: saving a Bill whose status is paid writes PAID onto the referenced
order, a write that goes through no status validation; saving a Bill with
any other status leaves every order row unchanged. -/
theorem bill_save_marks_order_paid (db : DB) (b : Bill) (o : Order)
    (h : db.orders.filter (fun x => x.id == b.order) = [o]) :
    (b.status = "paid" →
       (Bill.save db b).orders.filter (fun x => x.id == b.order)
         = [{ o with status := "PAID" }])
    ∧ (b.status ≠ "paid" → (Bill.save db b).orders = db.orders) := by
  have hfind : db.orders.find? (fun x => x.id == b.order) = some o :=
    filter_single_find? _ db.orders o h
  constructor
  · intro hp
    by_cases ho : o.status = "PAID"
    · have hoeq : ({ o with status := "PAID" } : Order) = o := by
        cases o
        simp_all
      simp only [Bill.save, hfind]
      simp [hp, ho, hoeq, h]
    · have hne2 : (o.status == "PAID") = false := by
        cases hs : o.status == "PAID"
        · rfl
        · exact absurd (by simpa using hs) ho
      simp only [Bill.save, hfind]
      simp only [hp, beq_self_eq_true, hne2, Bool.not_false, Bool.and_true, if_true]
      rw [filter_map_comm (fun x => x.id == b.order)
            (fun x => { x with status := "PAID" }) (fun x hx => hx) db.orders, h]
      rfl
  · intro hnp
    have hb2 : (b.status == "paid") = false := by
      cases hs : b.status == "paid"
      · rfl
      · exact absurd (by simpa using hs) hnp
    simp only [Bill.save, hfind]
    simp [hb2]

/-- Witness for C10: the paid bill flips order 9 from SERVED to PAID, the
pending bill leaves the order rows untouched. -/
theorem bill_save_marks_order_paid_witness :
    ((Bill.save dbBill billPaid).orders.filter (fun x => x.id == billPaid.order)
       = [{ id := 9, restaurant := 1, table := none, status := "PAID",
            created_at := 10, notes := "" }])
    ∧ (Bill.save dbBill billPending).orders = dbBill.orders := by
  constructor
  · exact (bill_save_marks_order_paid dbBill billPaid
      { id := 9, restaurant := 1, table := none, status := "SERVED",
        created_at := 10, notes := "" } (by decide)).1 rfl
  · exact (bill_save_marks_order_paid dbBill billPending
      { id := 9, restaurant := 1, table := none, status := "SERVED",
        created_at := 10, notes := "" } (by decide)).2 (by decide)

/-- C5: the staff gate is fail-closed on licenses, before any restaurant
check runs: an authenticated caller with no license row is denied 403, and
one whose single license row expired strictly before today is denied 403,
whatever the restaurant rows of the store say. -/
theorem license_required_fail_closed (db : DB) (today : Nat) (u : User)
    (hauth : u.is_authenticated = true) :
    (db.licenses.filter (fun l => l.user == u.id) = [] →
       license_required db today u = .deny 403 "No license found")
    ∧ (∀ l d, db.licenses.filter (fun l2 => l2.user == u.id) = [l] →
         l.expiry_date = some d → d < today →
         license_required db today u = .deny 403 "License expired") := by
  constructor
  · intro h
    simp only [license_required, hauth, Bool.not_true, Bool.false_eq_true,
      if_false, objectsGet, h]
  · intro l d h hd hlt
    have hact : l.is_active today = false := by
      simp only [LicenseConfig.is_active, hd]
      exact decide_eq_false (Nat.not_le.mpr hlt)
    simp only [license_required, hauth, Bool.not_true, Bool.false_eq_true,
      if_false, objectsGet, h, hact, Bool.not_false, if_true]

/-- Witness for C5: staff7 is denied without a license row, and denied on
day 5 with a license that expired on day 4, while owning an active
restaurant in both stores. -/
theorem license_required_fail_closed_witness :
    license_required dbNoLicense 5 staff7 = .deny 403 "No license found"
    ∧ license_required dbExpiredLicense 5 staff7 = .deny 403 "License expired" := by
  constructor
  · exact (license_required_fail_closed dbNoLicense 5 staff7 rfl).1 (by decide)
  · exact (license_required_fail_closed dbExpiredLicense 5 staff7 rfl).2
      { id := 1, user := 7, expiry_date := some 4 } 4 (by decide) rfl (by decide)

/-- C7: once the license gate passes, a PATCH with a status key from the
enumerated set is written directly onto any existing order, whatever its
current status, and the updated order is returned; a status outside the set
is a 400, an unknown order id a 404. -/
theorem api_update_order_status_write (db : DB) (today : Nat) (u : User) (oid : Nat)
    (hgate : license_required db today u = .allow) :
    (∀ o s, db.orders.filter (fun x => x.id == oid) = [o] →
       statusKeys.contains s = true →
       api_update_order db today u oid (some s)
           = ({ db with orders := db.orders.map (fun x => if x.id == oid then { o with status := s } else x) },
              .ok (OrderSerializer
                    { db with orders := db.orders.map (fun x => if x.id == oid then { o with status := s } else x) }
                    { o with status := s }))
         ∧ (db.orders.map
              (fun x => if x.id == oid then { o with status := s } else x)).filter
                (fun x => x.id == oid) = [{ o with status := s }])
    ∧ (∀ bs, db.orders.filter (fun x => x.id == oid) = [] →
         api_update_order db today u oid bs = (db, .notFound))
    ∧ (∀ o s, db.orders.filter (fun x => x.id == oid) = [o] →
         statusKeys.contains s = false →
         api_update_order db today u oid (some s) = (db, .invalid)) := by
  refine ⟨?_, ?_, ?_⟩
  · intro o s h hs
    have hpred : (o.id == oid) = true :=
      filter_single_pred (fun x : Order => x.id == oid) db.orders o h
    constructor
    · simp only [api_update_order, hgate, objectsGet, h, Option.getD_some, hs,
        if_true]
    · rw [filter_map_comm (fun x => x.id == oid)
            (fun _ => { o with status := s }) (fun x hx => hpred) db.orders, h]
      rfl
  · intro bs h
    simp only [api_update_order, hgate, objectsGet, h]
  · intro o s h hs
    simp only [api_update_order, hgate, objectsGet, h, Option.getD_some, hs,
      Bool.false_eq_true, if_false]

/-- Witness for C7: on dbUpdate the PAID order 42 is moved back to PENDING,
an unknown status EATEN is a 400, an unknown id 999 a 404. -/
theorem api_update_order_status_write_witness :
    api_update_order dbUpdate 5 staff1 42 (some "PENDING")
      = ({ dbUpdate with orders :=
             [{ id := 42, restaurant := 1, table := some 1, status := "PENDING",
                created_at := 10, notes := "" }] },
         .ok { id := 42, restaurant_name := "A", table := some "T1",
               status := "PENDING", created_at := 10, items := [], notes := "",
               total_amount := 0 })
    ∧ api_update_order dbUpdate 5 staff1 999 (some "PENDING") = (dbUpdate, .notFound)
    ∧ api_update_order dbUpdate 5 staff1 42 (some "EATEN") = (dbUpdate, .invalid) := by
  refine ⟨?_, ?_, ?_⟩
  · have h := ((api_update_order_status_write dbUpdate 5 staff1 42 (by decide)).1
      { id := 42, restaurant := 1, table := some 1, status := "PAID",
        created_at := 10, notes := "" }
      "PENDING" (by decide) (by decide)).1
    exact h.trans (by decide)
  · exact (api_update_order_status_write dbUpdate 5 staff1 999 (by decide)).2.1
      (some "PENDING") (by decide)
  · exact (api_update_order_status_write dbUpdate 5 staff1 42 (by decide)).2.2
      { id := 42, restaurant := 1, table := some 1, status := "PAID",
        created_at := 10, notes := "" }
      "EATEN" (by decide) (by decide)

/-- C2: when two tables of different restaurants carry the same code, the
customer-orders endpoint rejects the request (the global lookup raises
MultipleObjectsReturned, surfaced as an uncaught error), so no order list of
either tenant is ever returned on a code collision. -/
theorem api_customer_orders_tenant_collision_rejected (db : DB) (today : Nat)
    (tc : String) (tA tB : Table)
    (hA : tA ∈ db.tables) (hB : tB ∈ db.tables)
    (hcA : tA.code = tc) (hcB : tB.code = tc)
    (hne : tA.restaurant ≠ tB.restaurant) :
    api_customer_orders db today (some tc) = .uncaught := by
  have hab : tA ≠ tB := fun he => hne (by rw [he])
  have hmult : objectsGet (fun t => t.code == tc) db.tables = .multiple :=
    objectsGet_multiple (fun t => t.code == tc) db.tables tA tB hA hB
      (by simp [hcA]) (by simp [hcB]) hab
  simp only [api_customer_orders, public_license_check, hmult]

/-- Witness for C2: restaurants 1 and 2 of dbDupCode both own a table coded
T1 and the request is rejected. -/
theorem api_customer_orders_tenant_collision_rejected_witness :
    api_customer_orders dbDupCode 5 (some "T1") = .uncaught :=
  api_customer_orders_tenant_collision_rejected dbDupCode 5 "T1"
    { id := 1, restaurant := 1, name := "Table 1", code := "T1" }
    { id := 2, restaurant := 2, name := "Table 1", code := "T1" }
    (by decide) (by decide) rfl rfl (by decide)

/-- C1 refutation: in dbLeak the caller staff1 owns only restaurant 1 (name
A), yet the staff endpoint body contains order 202 of restaurant 2 (name B):
the staff queryset is not filtered by tenant. -/
theorem api_staff_orders_returns_other_tenants_orders :
    api_staff_orders dbLeak 5 staff1 none
      = .ok [OrderSerializer dbLeak leakOrder2, OrderSerializer dbLeak leakOrder1]
    ∧ (OrderSerializer dbLeak leakOrder2).restaurant_name = "B"
    ∧ leakOrder2.restaurant = 2
    ∧ (∀ r ∈ dbLeak.restaurants, r.owner = staff1.id → r.id = 1 ∧ r.name = "A") := by
  decide

/-- C3 refutation: the create-order request whose second line lacks the
item_id key fails with an uncaught error, yet the order row and the first
item row persist: creation and item attachment are not atomic. -/
theorem api_create_order_order_persisted_on_failure :
    (api_create_order dbCreate 5 10 reqMissingKey).2 = CreateResult.uncaught
    ∧ (api_create_order dbCreate 5 10 reqMissingKey).1.orders.length
        = dbCreate.orders.length + 1
    ∧ (api_create_order dbCreate 5 10 reqMissingKey).1.order_items.length = 1 := by
  decide

/-- C4: for every price p of item 5, the mixed request resolving item 5
(qty 2) and referencing the absent item 9999 (qty 1) is created with a 201,
the order carries exactly the one resolvable line and its total is 2 times
p; the unresolvable reference is skipped silently. -/
theorem api_create_order_skips_unresolvable_items (p : Nat) :
    (api_create_order (dbMixed p) 5 10 reqMixed).2
      = CreateResult.created
          { id := 1, restaurant_name := "A", table := some "T1",
            status := "PENDING", created_at := 10, items := [(5, 2, 2 * p)],
            notes := "", total_amount := 2 * p }
    ∧ (api_create_order (dbMixed p) 5 10 reqMixed).1.order_items.map
        (fun oi => (oi.order, oi.item, oi.qty)) = [(1, 5, 2)]
    ∧ (api_create_order (dbMixed p) 5 10 reqMixed).1.orders.map
        (fun o => (o.id, o.status)) = [(1, "PENDING")] := by
  refine ⟨?_, ?_, ?_⟩ <;>
    simp [api_create_order, dbMixed, reqMixed, public_license_check, objectsGet,
      Restaurant.is_active_now, attach_items, nextId, OrderSerializer, items_of,
      item_price, serializer_table, serializer_restaurant_name, get_total_amount,
      aggregate_total, Order.total_amount, OrderItem.line_total, List.filter]

end QRSys
